import Mathlib

/-!
Verification of the Smashers web application core
(`src/backend/app.py`): match lifecycle, availability resolution,
partner assignment, result recording and ranking, shallowly embedded
as pure Lean functions over explicit application state.
-/

namespace Smashers

/-! ## Result Recorder: `generate_remark` (app.py lines 42-52)

`re.findall(r'\d+', score)` extracts the maximal runs of decimal digits
from the score text, in order; each run is then converted to an integer.
-/

/-- Splits a character list into its maximal runs of decimal digits,
in order of appearance (the accumulator holds the current run reversed). -/
def digitRunsAux : List Char → List Char → List (List Char)
  | [], acc => if acc.isEmpty then [] else [acc.reverse]
  | c :: cs, acc =>
    if c.isDigit then digitRunsAux cs (c :: acc)
    else if acc.isEmpty then digitRunsAux cs []
    else acc.reverse :: digitRunsAux cs []

/-- Numeric value of a digit run (what Python `int` returns on it). -/
def digitsToNat (l : List Char) : Nat :=
  l.foldl (fun n c => 10 * n + (c.toNat - 48)) 0

/-- All integer substrings of `s`, in order of appearance:
`[int(g) for g in re.findall(r'\d+', score)]`. -/
def extractInts (s : String) : List Nat :=
  (digitRunsAux s.toList []).map digitsToNat

/-- Elements at even positions, `games[::2]`. -/
def evenIdx : List Nat → List Nat
  | [] => []
  | [x] => [x]
  | x :: _ :: xs => x :: evenIdx xs

/-- Elements at odd positions, `games[1::2]`. -/
def oddIdx : List Nat → List Nat
  | [] => []
  | [_] => []
  | _ :: y :: xs => y :: oddIdx xs

/-- `generate_remark` from app.py lines 42-52: empty remark for a falsy
score or when fewer than two or an odd number of integers are found,
otherwise a tier label chosen by the absolute difference of the two
teams' game-score sums. -/
def generate_remark (score : String) : String :=
  if score = "" then ""
  else
    let games := extractInts score
    if games.length < 2 ∨ games.length % 2 ≠ 0 then ""
    else
      let team1_total := (evenIdx games).sum
      let team2_total := (oddIdx games).sum
      let difference := ((team1_total : Int) - (team2_total : Int)).natAbs
      if difference ≤ 2 then "Nice Close Game!"
      else if difference ≤ 5 then "Well Fought Match!"
      else "Decisive Victory!"

/-! ## Data model

Rows of the three BigQuery tables (`players`, `matches`, `attendance`),
with the column sets used in app.py.  `winner_team`, `score` and `remark`
are `Option` because they are written as SQL `NULL` at creation;
`present_players` is `Option` because `pd.notna` is checked before use.
-/

/-- A row of the `players` table. -/
structure Player where
  username : String
  name : String
  age : Nat
  gender : String
  wins : Nat
  losses : Nat
  deriving Repr, DecidableEq

/-- A row of the `matches` table. -/
structure MatchRow where
  male_player1 : String
  female_player1 : String
  male_player2 : String
  female_player2 : String
  date : String
  game_type : String
  status : String
  winner_team : Option String
  score : Option String
  remark : Option String
  deriving Repr, DecidableEq

/-- A row of the `attendance` table. -/
structure AttendanceRow where
  date : String
  present_players : Option String
  deriving Repr, DecidableEq

/-- The stored application state: the three tables, rows in insertion
order (the order `SELECT *` / `iloc` indexing sees them in).
`matchRows` models the `matches` table (`matches` is reserved in Lean). -/
structure AppState where
  players : List Player
  matchRows : List MatchRow
  attendance : List AttendanceRow
  deriving Repr, DecidableEq

/-! ## Availability resolution (app.py lines 260-267 and 294-299) -/

/-- Python's `s.split(',')` (note `''.split(',') == ['']`);
the accumulator holds the current field reversed. -/
def splitCommaAux : List Char → List Char → List String
  | [], acc => [String.mk acc.reverse]
  | c :: cs, acc =>
    if c = ',' then String.mk acc.reverse :: splitCommaAux cs []
    else splitCommaAux cs (c :: acc)

/-- Python's `s.split(',')`. -/
def splitComma (s : String) : List String :=
  splitCommaAux s.toList []

/-- `matches_df['status'].isin(['scheduled', 'ongoing'])`. -/
def isActiveStatus (s : String) : Bool :=
  s = "scheduled" ∨ s = "ongoing"

/-- `active_matches_df`: the matches whose status is scheduled or ongoing. -/
def active_matches (ms : List MatchRow) : List MatchRow :=
  ms.filter (fun m => isActiveStatus m.status)

/-- `unavailable_players`: the four slot columns of every active match,
concatenated (membership in this list is what the code tests). -/
def unavailable_players (ms : List MatchRow) : List String :=
  let a := active_matches ms
  a.map (·.male_player1) ++ a.map (·.female_player1) ++
    a.map (·.male_player2) ++ a.map (·.female_player2)

/-- `present_players_usernames`: the comma-split present set of the first
attendance row for `today` when that row exists with a non-null
`present_players`, otherwise every registered username. -/
def present_players_usernames (st : AppState) (today : String) : List String :=
  match st.attendance.find? (fun r => r.date = today) with
  | some r =>
    match r.present_players with
    | some s => splitComma s
    | none => st.players.map (·.username)
  | none => st.players.map (·.username)

/-- `available_usernames`: present players not in an active match. -/
def available_usernames (st : AppState) (today : String) : List String :=
  (present_players_usernames st today).filter
    (fun p => ¬ p ∈ unavailable_players st.matchRows)

/-- `available_players_df`: the player rows whose username is available. -/
def available_players (st : AppState) (today : String) : List Player :=
  st.players.filter (fun p => p.username ∈ available_usernames st today)

/-- Usernames of available female players, in directory order
(the `female_players` list of `create_match`). -/
def female_players_usernames (st : AppState) (today : String) : List String :=
  ((available_players st today).filter (fun p => p.gender = "Female")).map (·.username)

/-! ## Partner assignment: `create_match` POST (app.py lines 269-287) -/

/-- The mixed-doubles creation form: `request.form.get` yields `none` for
a missing field; a present field may still be the empty string. -/
structure MixedForm where
  male_player1 : Option String
  female_player1 : Option String
  male_player2 : Option String
  female_player2 : Option String
  date_val : String
  game_type : String
  randomize1 : Bool
  randomize2 : Bool
  deriving Repr, DecidableEq

/-- `manually_picked`: the truthy values among the four form slots
(Python `{p for p in [...] if p}` keeps non-None, non-empty strings). -/
def manually_picked (f : MixedForm) : List String :=
  [f.male_player1, f.female_player1, f.male_player2, f.female_player2].filterMap
    (fun o => match o with
      | some s => if s = "" then none else some s
      | none => none)

/-- `random.choice` modelled by an arbitrary natural drawn modulo the pool
size; every element of a non-empty pool is a possible outcome. -/
def choice (l : List String) (r : Nat) : String :=
  l.getD (r % l.length) ""

/-- Error message flashed when a random pool is empty. -/
def errInsufficient : String :=
  "Not enough unique female players for random assignment."

/-- The random-fill block of `create_match` (app.py lines 271-278):
`females_for_random_pool` excludes manual picks; slot 1, when flagged,
draws from it and removes its draw; slot 2, when flagged, draws from the
remainder.  Returns the resolved `(female_player1, female_player2)`. -/
def resolve_female_slots (femalePool : List String) (f : MixedForm) (r1 r2 : Nat) :
    Except String (Option String × Option String) :=
  let pool0 := femalePool.filter (fun u => ¬ u ∈ manually_picked f)
  if f.randomize1 then
    if pool0.isEmpty then Except.error errInsufficient
    else
      let c := choice pool0 r1
      let pool1 := pool0.erase c
      if f.randomize2 then
        if pool1.isEmpty then Except.error errInsufficient
        else Except.ok (some c, some (choice pool1 r2))
      else Except.ok (some c, f.female_player2)
  else
    if f.randomize2 then
      if pool0.isEmpty then Except.error errInsufficient
      else Except.ok (f.female_player1, some (choice pool0 r2))
    else Except.ok (f.female_player1, f.female_player2)

/-- Python `None in all_players or "" in all_players`. -/
def hasBlankSlot (slots : List (Option String)) : Bool :=
  slots.contains none || slots.contains (some "")

/-- Python `len(set(all_players)) < 4` on the four resolved slots. -/
def hasDuplicate (slots : List (Option String)) : Bool :=
  (slots.filterMap id).dedup.length < 4

/-- The row inserted for a new match: status `scheduled`, result fields null. -/
def newMatchRow (mp1 fp1 mp2 fp2 date_val game_type : String) : MatchRow :=
  { male_player1 := mp1, female_player1 := fp1,
    male_player2 := mp2, female_player2 := fp2,
    date := date_val, game_type := game_type, status := "scheduled",
    winner_team := none, score := none, remark := none }

/-- `create_match` POST (app.py lines 269-287): resolve the two female
slots (randomly if flagged), then reject a blank slot, then reject
duplicate usernames, else insert the new scheduled match.  The second
component is the flashed error, `none` on success. -/
def create_match (st : AppState) (today : String) (f : MixedForm) (r1 r2 : Nat) :
    AppState × Option String :=
  match resolve_female_slots (female_players_usernames st today) f r1 r2 with
  | Except.error e => (st, some e)
  | Except.ok (fp1, fp2) =>
    let all_players : List (Option String) := [f.male_player1, fp1, f.male_player2, fp2]
    if hasBlankSlot all_players then
      (st, some "All four player slots must be filled.")
    else if hasDuplicate all_players then
      (st, some "All four players must be unique. A player may have been auto-selected.")
    else
      ({ st with matchRows := st.matchRows ++
          [newMatchRow (f.male_player1.getD "") (fp1.getD "") (f.male_player2.getD "")
            (fp2.getD "") f.date_val f.game_type] }, none)

/-- The custom-match creation form (app.py line 301). -/
structure CustomForm where
  team1_player1 : Option String
  team1_player2 : Option String
  team2_player1 : Option String
  team2_player2 : Option String
  date_val : String
  game_type : String
  deriving Repr, DecidableEq

/-- `create_custom_match` POST (app.py lines 300-309): all four slots come
from the form; reject a blank slot, then duplicates, else insert. -/
def create_custom_match (st : AppState) (f : CustomForm) : AppState × Option String :=
  let all_players : List (Option String) :=
    [f.team1_player1, f.team1_player2, f.team2_player1, f.team2_player2]
  if hasBlankSlot all_players then
    (st, some "All four player slots must be filled.")
  else if hasDuplicate all_players then
    (st, some "All four players in a match must be unique.")
  else
    ({ st with matchRows := st.matchRows ++
        [newMatchRow (f.team1_player1.getD "") (f.team1_player2.getD "")
          (f.team2_player1.getD "") (f.team2_player2.getD "") f.date_val f.game_type] }, none)

/-! ## Match lifecycle: start, cancel, finish (app.py lines 312-375)

Every lifecycle operation addresses its stored rows through the SQL
`WHERE date = … AND game_type = … AND male_player1 = …` clause built from
the row found at the caller-supplied positional index.
-/

/-- The `WHERE` clause shared by the three lifecycle queries. -/
def tripleMatch (x m : MatchRow) : Bool :=
  x.date == m.date && x.game_type == m.game_type && x.male_player1 == m.male_player1

/-- `start_match` (app.py lines 312-327): for a valid index, set status
`ongoing` on every row matching the indexed row's triple; otherwise flash
an error and change nothing.  No status is checked. -/
def start_match (st : AppState) (match_index : Nat) : AppState × Option String :=
  match st.matchRows[match_index]? with
  | some m =>
    ({ st with matchRows := st.matchRows.map (fun x =>
        if tripleMatch x m then { x with status := "ongoing" } else x) }, none)
  | none => (st, some "Invalid match index.")

/-- Error flashed by `cancel_match` on any failure. -/
def cancelErr : String :=
  "Could not cancel match. It might already be ongoing or completed."

/-- `cancel_match` (app.py lines 329-344): only a valid index whose row has
status `scheduled` deletes (every row matching the triple); otherwise flash
an error and change nothing. -/
def cancel_match (st : AppState) (match_index : Nat) : AppState × Option String :=
  match st.matchRows[match_index]? with
  | some m =>
    if m.status = "scheduled" then
      ({ st with matchRows := st.matchRows.filter (fun x => ¬ tripleMatch x m) }, none)
    else (st, some cancelErr)
  | none => (st, some cancelErr)

/-- One `UPDATE players SET wins = wins + 1 WHERE username = u`. -/
def incWins (u : String) (ps : List Player) : List Player :=
  ps.map (fun p => if p.username = u then { p with wins := p.wins + 1 } else p)

/-- One `UPDATE players SET losses = losses + 1 WHERE username = u`. -/
def incLosses (u : String) (ps : List Player) : List Player :=
  ps.map (fun p => if p.username = u then { p with losses := p.losses + 1 } else p)

/-- The row update of the match `UPDATE` in `finish_match`: status
completed, winner/score/remark set. -/
def completedRow (x : MatchRow) (w s r : String) : MatchRow :=
  { x with
    status := "completed"
    winner_team := some w
    score := some s
    remark := some r }

/-- The match `UPDATE` of `finish_match`: set status/winner/score/remark on
every row matching the indexed row's triple. -/
def completeMatchRows (ms : List MatchRow) (m : MatchRow)
    (winner_team score remark : String) : List MatchRow :=
  ms.map (fun x =>
    if tripleMatch x m then completedRow x winner_team score remark
    else x)

/-- First winner slot: `male_player1` of the row if Team 1 won, else
`male_player2`. -/
def winner1 (m : MatchRow) (winner_team : String) : String :=
  if winner_team = "Team 1" then m.male_player1 else m.male_player2

/-- Second winner slot. -/
def winner2 (m : MatchRow) (winner_team : String) : String :=
  if winner_team = "Team 1" then m.female_player1 else m.female_player2

/-- First loser slot. -/
def loser1 (m : MatchRow) (winner_team : String) : String :=
  if winner_team = "Team 1" then m.male_player2 else m.male_player1

/-- Second loser slot. -/
def loser2 (m : MatchRow) (winner_team : String) : String :=
  if winner_team = "Team 1" then m.female_player2 else m.female_player1

/-- `finish_match` (app.py lines 346-375): for a valid index, update every
row matching the triple to completed and apply the four sequential player
counter updates (winners' wins, then losers' losses); otherwise flash an
error and change nothing.  No status is checked. -/
def finish_match (st : AppState) (match_index : Nat) (winner_team score : String) :
    AppState × Option String :=
  let remark := generate_remark score
  match st.matchRows[match_index]? with
  | some m =>
    ({ st with
        matchRows := completeMatchRows st.matchRows m winner_team score remark,
        players := incLosses (loser2 m winner_team) (incLosses (loser1 m winner_team)
          (incWins (winner2 m winner_team) (incWins (winner1 m winner_team) st.players))) },
      none)
  | none => (st, some "Failed to record results. Invalid match index.")

/-- `finish_match` with an explicit storage fault: the five sequential
writes (match update, winner 1, winner 2, loser 1, loser 2) execute in
order; write `k` raises when `failAt = some k`, leaving every earlier
write persisted.  The Boolean reports whether the operation completed. -/
def finish_match_faulty (st : AppState) (match_index : Nat) (winner_team score : String)
    (failAt : Option Nat) : AppState × Bool :=
  let remark := generate_remark score
  match st.matchRows[match_index]? with
  | some m =>
    if failAt = some 0 then (st, false) else
    let stA := { st with
      matchRows := completeMatchRows st.matchRows m winner_team score remark }
    if failAt = some 1 then (stA, false) else
    let stB := { stA with players := incWins (winner1 m winner_team) stA.players }
    if failAt = some 2 then (stB, false) else
    let stC := { stB with players := incWins (winner2 m winner_team) stB.players }
    if failAt = some 3 then (stC, false) else
    let stD := { stC with players := incLosses (loser1 m winner_team) stC.players }
    if failAt = some 4 then (stD, false) else
    ({ stD with players := incLosses (loser2 m winner_team) stD.players }, true)
  | none => (st, false)

/-! ## Ranking Engine: `rankings` (app.py lines 144-151) -/

/-- `wins / (wins + losses).replace(0, 1)`: the win ratio with denominator
1 when the player has no matches. -/
def win_loss_ratio (p : Player) : ℚ :=
  (p.wins : ℚ) / (if p.wins + p.losses = 0 then 1 else ((p.wins + p.losses : Nat) : ℚ))

/-- Descending order on the ratio column: `a` may precede `b`. -/
def ratioGe (a b : Player) : Prop :=
  win_loss_ratio b ≤ win_loss_ratio a

instance : DecidableRel ratioGe := fun a b =>
  inferInstanceAs (Decidable (win_loss_ratio b ≤ win_loss_ratio a))

/-- Contract of `sort_values(by='win_loss_ratio', ascending=False)` at
app.py line 149 under the default `kind='quicksort'`: the result is a
permutation of the input whose ratio column is descending.  Pandas
documents this default sort kind as not stable (only
`kind='mergesort'`/`'stable'` is), and numpy's introsort reorders equal
keys beyond its small-array threshold, so the order among equal ratios
is unspecified: every list satisfying this predicate is an admissible
result of the `rankings` route, and nothing smaller is guaranteed. -/
def IsRankingOf (out ps : List Player) : Prop :=
  List.Perm out ps ∧ out.Pairwise ratioGe

/-! ## Derived quantities and concrete states used in the theorems -/

/-- The `difference` computed inside `generate_remark`:
`abs(sum(games[::2]) - sum(games[1::2]))` over the extracted integers. -/
def score_diff (s : String) : Nat :=
  (((evenIdx (extractInts s)).sum : Int) - ((oddIdx (extractInts s)).sum : Int)).natAbs

/-- A player with no recorded matches. -/
def playerA : Player :=
  { username := "a", name := "Ann A", age := 30, gender := "Female", wins := 0, losses := 0 }

/-- A player with only losses. -/
def playerB : Player :=
  { username := "b", name := "Bea B", age := 31, gender := "Female", wins := 0, losses := 3 }

/-- A player with only wins. -/
def playerC : Player :=
  { username := "c", name := "Cal C", age := 32, gender := "Male", wins := 5, losses := 0 }

/-- Four fresh players filling one roster. -/
def basePlayers : List Player :=
  [{ username := "m1", name := "M One", age := 20, gender := "Male", wins := 0, losses := 0 },
   { username := "f1", name := "F One", age := 21, gender := "Female", wins := 0, losses := 0 },
   { username := "m2", name := "M Two", age := 22, gender := "Male", wins := 0, losses := 0 },
   { username := "f2", name := "F Two", age := 23, gender := "Female", wins := 0, losses := 0 }]

/-- A freshly created (scheduled) match between the four base players. -/
def mScheduled : MatchRow :=
  newMatchRow "m1" "f1" "m2" "f2" "2025-01-01" "Game 1"

/-- State with the four base players and one scheduled match. -/
def stScheduled : AppState :=
  { players := basePlayers, matchRows := [mScheduled], attendance := [] }

/-- The state after the scheduled match is finished once. -/
def stFinishedOnce : AppState :=
  (finish_match stScheduled 0 "Team 1" "21-19").1

/-- The state after the scheduled match is started. -/
def stOngoing : AppState :=
  (start_match stScheduled 0).1

/-- A second scheduled match sharing date, game type and first slot with
`mScheduled` but with a different second team. -/
def mScheduledTwin : MatchRow :=
  newMatchRow "m1" "f1" "m3" "f3" "2025-01-01" "Game 1"

/-- State holding two distinct scheduled matches that agree on the
(date, game_type, male_player1) triple. -/
def stTwin : AppState :=
  { players := basePlayers, matchRows := [mScheduled, mScheduledTwin], attendance := [] }

/-- The row of `stFinishedOnce`: `mScheduled` completed with a close score. -/
def mFinished : MatchRow :=
  completedRow mScheduled "Team 1" "21-19" "Nice Close Game!"

/-- A mixed-creation form with every slot blank and both random flags set. -/
def formBothRandom : MixedForm :=
  { male_player1 := none, female_player1 := none, male_player2 := none,
    female_player2 := none, date_val := "2025-01-01", game_type := "Game 1",
    randomize1 := true, randomize2 := true }

/-- A custom-creation form whose two manual picks collide. -/
def formDupCustom : CustomForm :=
  { team1_player1 := some "m1", team1_player2 := some "f1",
    team2_player1 := some "m1", team2_player2 := some "f2",
    date_val := "2025-01-01", game_type := "Game 1" }

/-! ## Theorems -/

/-- An element drawn by `choice` from a non-empty pool lies in the pool. -/
theorem choice_mem (l : List String) (r : Nat) (h : l ≠ []) : choice l r ∈ l := by
  have hlen : r % l.length < l.length := Nat.mod_lt _ (List.length_pos.mpr h)
  rw [choice, List.getD_eq_getElem?_getD, List.getElem?_eq_getElem hlen]
  exact List.getElem_mem _

/-- C1: for every input string, the remark computation extracts the
integer substrings in order; fewer than two or an odd count yields the
empty remark, else the absolute difference of even- and odd-position sums
selects the close-game (≤ 2), well-fought (3..5) or decisive (> 5) label;
in particular on "21-19", "21-15", "21-10" and "not a score". -/
theorem generate_remark_tiers :
    (∀ s : String,
      ((extractInts s).length < 2 ∨ (extractInts s).length % 2 ≠ 0 →
        generate_remark s = "") ∧
      (2 ≤ (extractInts s).length → (extractInts s).length % 2 = 0 →
        (score_diff s ≤ 2 → generate_remark s = "Nice Close Game!") ∧
        (3 ≤ score_diff s → score_diff s ≤ 5 → generate_remark s = "Well Fought Match!") ∧
        (5 < score_diff s → generate_remark s = "Decisive Victory!"))) ∧
    generate_remark "21-19" = "Nice Close Game!" ∧
    generate_remark "21-15" = "Decisive Victory!" ∧
    generate_remark "21-10" = "Decisive Victory!" ∧
    generate_remark "not a score" = "" := by
  refine ⟨fun s => ⟨?_, ?_⟩, by decide, by decide, by decide, by decide⟩
  · intro h
    by_cases hs : s = ""
    · simp [generate_remark, hs]
    · simp only [generate_remark, if_neg hs]
      rw [if_pos h]
  · intro h2 hmod
    have hs : s ≠ "" := by
      intro hs
      rw [hs] at h2
      simp [extractInts, digitRunsAux] at h2
    have hcond : ¬((extractInts s).length < 2 ∨ (extractInts s).length % 2 ≠ 0) := by
      omega
    simp only [generate_remark, if_neg hs, if_neg hcond, score_diff]
    refine ⟨fun hd => ?_, fun hd3 hd5 => ?_, fun hd => ?_⟩
    · rw [if_pos hd]
    · rw [if_neg (by omega), if_pos hd5]
    · rw [if_neg (by omega), if_neg (by omega)]

/-- Witness for C1: a concrete well-fought score, difference 4. -/
theorem generate_remark_tiers_witness :
    generate_remark "21-17" = "Well Fought Match!" :=
  ((generate_remark_tiers.1 "21-17").2 (by decide) (by decide)).2.1 (by decide) (by decide)

/-- C2: with no attendance record for the date the availability
computation returns all registered players minus the active-match
participants; with a record it returns the recorded present set minus
the same; and the unavailable set is exactly the slot-holders of the
matches whose status is scheduled or ongoing, regardless of date. -/
theorem available_usernames_spec (st : AppState) (today : String) :
    ((∀ r ∈ st.attendance, r.date ≠ today) →
      available_usernames st today =
        (st.players.map (·.username)).filter
          (fun p => ¬ p ∈ unavailable_players st.matchRows)) ∧
    (∀ r, st.attendance.find? (fun a => a.date = today) = some r →
      ∀ s, r.present_players = some s →
      available_usernames st today =
        (splitComma s).filter (fun p => ¬ p ∈ unavailable_players st.matchRows)) ∧
    (∀ u, u ∈ unavailable_players st.matchRows ↔
      ∃ m ∈ st.matchRows, (m.status = "scheduled" ∨ m.status = "ongoing") ∧
        (u = m.male_player1 ∨ u = m.female_player1 ∨
         u = m.male_player2 ∨ u = m.female_player2)) := by
  refine ⟨?_, ?_, ?_⟩
  · intro h
    have hf : st.attendance.find? (fun a => a.date = today) = none := by
      rw [List.find?_eq_none]
      intro r hr
      simp [h r hr]
    simp [available_usernames, present_players_usernames, hf]
  · intro r hr s hs
    simp [available_usernames, present_players_usernames, hr, hs]
  · intro u
    simp only [unavailable_players, active_matches, List.mem_append, List.mem_map,
      List.mem_filter, isActiveStatus, decide_eq_true_eq]
    constructor
    · rintro (((⟨m, ⟨hm, hst⟩, hu⟩ | ⟨m, ⟨hm, hst⟩, hu⟩) | ⟨m, ⟨hm, hst⟩, hu⟩) | ⟨m, ⟨hm, hst⟩, hu⟩)
      · exact ⟨m, hm, hst, Or.inl hu.symm⟩
      · exact ⟨m, hm, hst, Or.inr (Or.inl hu.symm)⟩
      · exact ⟨m, hm, hst, Or.inr (Or.inr (Or.inl hu.symm))⟩
      · exact ⟨m, hm, hst, Or.inr (Or.inr (Or.inr hu.symm))⟩
    · rintro ⟨m, hm, hst, (h | h | h | h)⟩
      · exact Or.inl (Or.inl (Or.inl ⟨m, ⟨hm, hst⟩, h.symm⟩))
      · exact Or.inl (Or.inl (Or.inr ⟨m, ⟨hm, hst⟩, h.symm⟩))
      · exact Or.inl (Or.inr ⟨m, ⟨hm, hst⟩, h.symm⟩)
      · exact Or.inr ⟨m, ⟨hm, hst⟩, h.symm⟩

/-- Witness for C2: a date with no attendance record in a concrete state. -/
theorem available_usernames_spec_witness :
    available_usernames stScheduled "2025-01-02" =
      (stScheduled.players.map (·.username)).filter
        (fun p => ¬ p ∈ unavailable_players stScheduled.matchRows) :=
  (available_usernames_spec stScheduled "2025-01-02").1 (by decide)

/-- C7: cancel succeeds only when the addressed match is scheduled; on a
non-scheduled match it fails with the cancel error and leaves the state
unchanged; on a scheduled match it succeeds and the match leaves the
store. -/
theorem cancel_match_guard (st : AppState) (i : Nat) (m : MatchRow)
    (hm : st.matchRows[i]? = some m) :
    (m.status ≠ "scheduled" → cancel_match st i = (st, some cancelErr)) ∧
    ((cancel_match st i).2 = none → m.status = "scheduled") ∧
    (m.status = "scheduled" →
      (cancel_match st i).2 = none ∧ ¬ m ∈ (cancel_match st i).1.matchRows) := by
  refine ⟨?_, ?_, ?_⟩
  · intro h
    simp [cancel_match, hm, h]
  · intro h
    by_contra hs
    simp [cancel_match, hm, hs] at h
  · intro h
    refine ⟨by simp [cancel_match, hm, h], ?_⟩
    simp only [cancel_match, hm, if_pos h]
    intro hmem
    rw [List.mem_filter] at hmem
    have : tripleMatch m m = true := by simp [tripleMatch]
    simp [this] at hmem

/-- Witness for C7: canceling a concrete ongoing match fails and leaves
the state unchanged. -/
theorem cancel_match_guard_witness :
    cancel_match stOngoing 0 = (stOngoing, some cancelErr) ∧
    stOngoing.matchRows[0]?.map (·.status) = some "ongoing" :=
  ⟨(cancel_match_guard stOngoing 0 { mScheduled with status := "ongoing" } (by decide)).1
      (by decide),
    by decide⟩

/-- C10: start, cancel and finish address rows by the
(date, game_type, male_player1) triple of the indexed match, so every
stored match sharing that triple is updated or deleted together. -/
theorem lifecycle_triple_addressing (st : AppState) (i j : Nat) (m mj : MatchRow)
    (hm : st.matchRows[i]? = some m) (hj : st.matchRows[j]? = some mj)
    (ht : tripleMatch mj m = true) (w s : String) :
    (start_match st i).1.matchRows[j]? = some { mj with status := "ongoing" } ∧
    (finish_match st i w s).1.matchRows[j]? =
      some (completedRow mj w s (generate_remark s)) ∧
    (m.status = "scheduled" → ¬ mj ∈ (cancel_match st i).1.matchRows) := by
  refine ⟨?_, ?_, ?_⟩
  · simp [start_match, hm, List.getElem?_map, hj, ht]
  · simp [finish_match, hm, completeMatchRows, completedRow, List.getElem?_map, hj, ht]
  · intro hs
    simp [cancel_match, hm, hs, List.mem_filter, ht]

/-- Witness for C10: two concrete scheduled matches share a triple; the
second is started, completed, or deleted by an operation addressing the
first. -/
theorem lifecycle_triple_addressing_witness :
    (start_match stTwin 0).1.matchRows[1]? =
      some { mScheduledTwin with status := "ongoing" } ∧
    (finish_match stTwin 0 "Team 1" "21-19").1.matchRows[1]? =
      some (completedRow mScheduledTwin "Team 1" "21-19" (generate_remark "21-19")) ∧
    (mScheduled.status = "scheduled" →
      ¬ mScheduledTwin ∈ (cancel_match stTwin 0).1.matchRows) :=
  lifecycle_triple_addressing stTwin 0 1 mScheduled mScheduledTwin
    (by decide) (by decide) (by decide) "Team 1" "21-19"

/-- Counterexample to C3: `finish_match` has no status guard.  Finishing
the scheduled match once succeeds and leaves every winner at wins 1 and
every loser at losses 1 with the match completed; a second finish of the
same (now completed) match succeeds again instead of being rejected, and
increments every counter a second time — so wins + losses grows by 2 for
the one completed match the players appear in. -/
theorem finish_match_twice_cex :
    (finish_match stScheduled 0 "Team 1" "21-19").2 = none ∧
    stFinishedOnce.matchRows[0]?.map (·.status) = some "completed" ∧
    stFinishedOnce.players.map (fun p => (p.username, p.wins, p.losses)) =
      [("m1", 1, 0), ("f1", 1, 0), ("m2", 0, 1), ("f2", 0, 1)] ∧
    (finish_match stFinishedOnce 0 "Team 1" "21-19").2 = none ∧
    (finish_match stFinishedOnce 0 "Team 1" "21-19").1.players.map
        (fun p => (p.username, p.wins, p.losses)) =
      [("m1", 2, 0), ("f1", 2, 0), ("m2", 0, 2), ("f2", 0, 2)] := by
  refine ⟨by decide, by decide, by decide, by decide, by decide⟩

/-- C3 amended: `finish_match` succeeds on every valid index regardless of
the match's status, and each successful invocation gives each winner-slot
player exactly one win and each loser-slot player exactly one loss (slots
pairwise distinct). -/
theorem finish_match_no_guard (st : AppState) (i : Nat) (m : MatchRow) (w s : String)
    (hm : st.matchRows[i]? = some m)
    (hnd : [m.male_player1, m.female_player1, m.male_player2, m.female_player2].Nodup) :
    (finish_match st i w s).2 = none ∧
    ∀ (j : Nat) (p : Player), st.players[j]? = some p →
      ∃ q, (finish_match st i w s).1.players[j]? = some q ∧
        q.username = p.username ∧
        q.wins = p.wins +
          (if p.username = winner1 m w ∨ p.username = winner2 m w then 1 else 0) ∧
        q.losses = p.losses +
          (if p.username = loser1 m w ∨ p.username = loser2 m w then 1 else 0) := by
  have hdist : winner1 m w ≠ winner2 m w ∧ winner1 m w ≠ loser1 m w ∧
      winner1 m w ≠ loser2 m w ∧ winner2 m w ≠ loser1 m w ∧
      winner2 m w ≠ loser2 m w ∧ loser1 m w ≠ loser2 m w := by
    simp only [List.nodup_cons, List.mem_cons, List.not_mem_nil, or_false,
      List.nodup_nil, and_true, not_or] at hnd
    by_cases hw : w = "Team 1" <;>
      simp [winner1, winner2, loser1, loser2, hw] <;> tauto
  obtain ⟨d12, d13, d14, d23, d24, d34⟩ := hdist
  have hval : ∀ (j : Nat) (p : Player), st.players[j]? = some p →
      (finish_match st i w s).1.players[j]? = some (
        (fun q => if q.username = loser2 m w then { q with losses := q.losses + 1 } else q)
        ((fun q => if q.username = loser1 m w then { q with losses := q.losses + 1 } else q)
        ((fun q => if q.username = winner2 m w then { q with wins := q.wins + 1 } else q)
        ((fun q => if q.username = winner1 m w then { q with wins := q.wins + 1 } else q)
          p)))) := by
    intro j p hp
    simp [finish_match, hm, incWins, incLosses, List.getElem?_map, hp]
  refine ⟨by simp [finish_match, hm], ?_⟩
  intro j p hp
  refine ⟨_, hval j p hp, ?_⟩
  by_cases c1 : p.username = winner1 m w
  · simp [c1, d12, d13, d14]
  · by_cases c2 : p.username = winner2 m w
    · simp [c2, Ne.symm d12, d23, d24]
    · by_cases c3 : p.username = loser1 m w
      · simp [c3, Ne.symm d13, Ne.symm d23, d34]
      · by_cases c4 : p.username = loser2 m w
        · simp [c4, Ne.symm d14, Ne.symm d24, Ne.symm d34]
        · simp [c1, c2, c3, c4]

/-- Witness for the amended C3: finishing a concrete scheduled match
succeeds. -/
theorem finish_match_no_guard_witness :
    (finish_match stScheduled 0 "Team 1" "21-19").2 = none :=
  (finish_match_no_guard stScheduled 0 mScheduled "Team 1" "21-19"
    (by decide) (by decide)).1

/-- Counterexample to C4: a storage failure right after the match update
leaves the match record changed with all counters unchanged — the claimed
"all effects or state unchanged" dichotomy is false. -/
theorem finish_not_atomic_cex :
    (finish_match_faulty stScheduled 0 "Team 1" "21-19" (some 1)).2 = false ∧
    (finish_match_faulty stScheduled 0 "Team 1" "21-19" (some 1)).1.players =
      stScheduled.players ∧
    (finish_match_faulty stScheduled 0 "Team 1" "21-19" (some 1)).1.matchRows ≠
      stScheduled.matchRows := by
  refine ⟨by decide, by decide, by decide⟩

/-- C4 amended: finish's five writes are sequential and unguarded — with no
fault all effects persist; a fault before any write leaves the state
unchanged; a fault after the match update persists the match update alone,
with every player counter untouched. -/
theorem finish_sequential_writes (st : AppState) (i : Nat) (m : MatchRow) (w s : String)
    (hm : st.matchRows[i]? = some m) :
    finish_match_faulty st i w s none = ((finish_match st i w s).1, true) ∧
    finish_match_faulty st i w s (some 0) = (st, false) ∧
    (finish_match_faulty st i w s (some 1)).1.matchRows =
      completeMatchRows st.matchRows m w s (generate_remark s) ∧
    (finish_match_faulty st i w s (some 1)).1.players = st.players ∧
    (finish_match_faulty st i w s (some 1)).2 = false := by
  refine ⟨?_, ?_, ?_, ?_, ?_⟩ <;> simp [finish_match_faulty, finish_match, hm]

/-- Witness for the amended C4 at a concrete state. -/
theorem finish_sequential_writes_witness :
    finish_match_faulty stScheduled 0 "Team 1" "21-19" none =
      ((finish_match stScheduled 0 "Team 1" "21-19").1, true) ∧
    finish_match_faulty stScheduled 0 "Team 1" "21-19" (some 0) = (stScheduled, false) :=
  ⟨(finish_sequential_writes stScheduled 0 mScheduled "Team 1" "21-19" (by decide)).1,
   (finish_sequential_writes stScheduled 0 mScheduled "Team 1" "21-19" (by decide)).2.1⟩

/-- Counterexample to C8: `start_match` has no status guard — starting an
already completed match succeeds and moves it back to ongoing instead of
failing with an invalid-transition error. -/
theorem start_match_completed_cex :
    stFinishedOnce.matchRows[0]?.map (·.status) = some "completed" ∧
    (start_match stFinishedOnce 0).2 = none ∧
    (start_match stFinishedOnce 0).1.matchRows[0]?.map (·.status) = some "ongoing" := by
  refine ⟨by decide, by decide, by decide⟩

/-- C8 amended: `start_match` fails (flashing an index error, state
unchanged) exactly when the index is out of range; on a valid index it
succeeds regardless of the match's status, setting every row that shares
the indexed row's triple to ongoing and leaving other rows and tables
unchanged. -/
theorem start_match_no_guard (st : AppState) (i : Nat) :
    (st.matchRows[i]? = none → start_match st i = (st, some "Invalid match index.")) ∧
    (∀ m, st.matchRows[i]? = some m →
      (start_match st i).2 = none ∧
      (start_match st i).1.players = st.players ∧
      (start_match st i).1.attendance = st.attendance ∧
      (start_match st i).1.matchRows.length = st.matchRows.length ∧
      ∀ (j : Nat) (mj : MatchRow), st.matchRows[j]? = some mj →
        (start_match st i).1.matchRows[j]? =
          some (if tripleMatch mj m then { mj with status := "ongoing" } else mj)) := by
  constructor
  · intro h
    simp [start_match, h]
  · intro m hm
    refine ⟨by simp [start_match, hm], by simp [start_match, hm], by simp [start_match, hm],
      by simp [start_match, hm], ?_⟩
    intro j mj hj
    simp [start_match, hm, List.getElem?_map, hj]

/-- Witness for the amended C8: starting the concrete completed match
succeeds. -/
theorem start_match_no_guard_witness :
    (start_match stFinishedOnce 0).2 = none ∧
    (start_match stFinishedOnce 0).1.matchRows[0]? =
      some (if tripleMatch mFinished mFinished
            then { mFinished with status := "ongoing" } else mFinished) :=
  ⟨((start_match_no_guard stFinishedOnce 0).2 mFinished (by decide)).1,
   ((start_match_no_guard stFinishedOnce 0).2 mFinished (by decide)).2.2.2.2 0 mFinished
     (by decide)⟩

/-- C5: every randomly filled female slot is drawn from the same-gender
available pool minus the manual picks, the second random draw also
excludes the first (no replacement, so over a duplicate-free pool the two
draws differ); in particular, over pool `[g1, g2]` with both flags set
and no manual picks, every outcome of the random source yields `g1` and
`g2` in some order. -/
theorem resolve_female_slots_spec (f : MixedForm) (r1 r2 : Nat) :
    (∀ (pool : List String) (fp1 fp2 : Option String),
      resolve_female_slots pool f r1 r2 = Except.ok (fp1, fp2) →
      (f.randomize1 = true → ∃ a, fp1 = some a ∧ a ∈ pool ∧ ¬ a ∈ manually_picked f) ∧
      (f.randomize2 = true → ∃ b, fp2 = some b ∧ b ∈ pool ∧ ¬ b ∈ manually_picked f) ∧
      (f.randomize1 = true → f.randomize2 = true → pool.Nodup → fp1 ≠ fp2)) ∧
    (∀ g1 g2 : String, g1 ≠ g2 →
      f.randomize1 = true → f.randomize2 = true →
      f.male_player1 = none → f.female_player1 = none →
      f.male_player2 = none → f.female_player2 = none →
      resolve_female_slots [g1, g2] f r1 r2 = Except.ok (some g1, some g2) ∨
      resolve_female_slots [g1, g2] f r1 r2 = Except.ok (some g2, some g1)) := by
  constructor
  · intro pool fp1 fp2 hok
    rw [resolve_female_slots] at hok
    set pool0 := pool.filter (fun u => ¬ u ∈ manually_picked f) with hp0
    have hmem0 : ∀ x, x ∈ pool0 → x ∈ pool ∧ ¬ x ∈ manually_picked f := by
      intro x hx
      rw [hp0, List.mem_filter] at hx
      exact ⟨hx.1, by simpa using hx.2⟩
    by_cases hr1 : f.randomize1 = true
    · rw [if_pos hr1] at hok
      by_cases hpe : pool0.isEmpty
      · rw [if_pos hpe] at hok
        exact absurd hok (by simp)
      · rw [if_neg hpe] at hok
        have hne : pool0 ≠ [] := by simpa [List.isEmpty_iff] using hpe
        by_cases hr2 : f.randomize2 = true
        · rw [if_pos hr2] at hok
          by_cases hpe2 : (pool0.erase (choice pool0 r1)).isEmpty
          · rw [if_pos hpe2] at hok
            exact absurd hok (by simp)
          · rw [if_neg hpe2] at hok
            have hne2 : pool0.erase (choice pool0 r1) ≠ [] := by
              simpa [List.isEmpty_iff] using hpe2
            simp only [Except.ok.injEq, Prod.mk.injEq] at hok
            obtain ⟨hfp1, hfp2⟩ := hok
            have hc : choice pool0 r1 ∈ pool0 := choice_mem _ _ hne
            have hb : choice (pool0.erase (choice pool0 r1)) r2 ∈
                pool0.erase (choice pool0 r1) := choice_mem _ _ hne2
            have hb0 : choice (pool0.erase (choice pool0 r1)) r2 ∈ pool0 :=
              List.mem_of_mem_erase hb
            refine ⟨fun _ => ⟨_, hfp1.symm, (hmem0 _ hc).1, (hmem0 _ hc).2⟩,
              fun _ => ⟨_, hfp2.symm, (hmem0 _ hb0).1, (hmem0 _ hb0).2⟩,
              fun _ _ hnd => ?_⟩
            have hnd0 : pool0.Nodup := List.Nodup.filter _ hnd
            have hbc : choice (pool0.erase (choice pool0 r1)) r2 ≠ choice pool0 r1 :=
              ((List.Nodup.mem_erase_iff hnd0).mp hb).1
            rw [← hfp1, ← hfp2]
            intro hcon
            exact hbc (Option.some.injEq .. ▸ hcon).symm
        · rw [if_neg hr2] at hok
          simp only [Except.ok.injEq, Prod.mk.injEq] at hok
          obtain ⟨hfp1, hfp2⟩ := hok
          have hc : choice pool0 r1 ∈ pool0 := choice_mem _ _ hne
          exact ⟨fun _ => ⟨_, hfp1.symm, (hmem0 _ hc).1, (hmem0 _ hc).2⟩,
            fun h => absurd h hr2, fun _ h => absurd h hr2⟩
    · rw [if_neg hr1] at hok
      by_cases hr2 : f.randomize2 = true
      · rw [if_pos hr2] at hok
        by_cases hpe : pool0.isEmpty
        · rw [if_pos hpe] at hok
          exact absurd hok (by simp)
        · rw [if_neg hpe] at hok
          have hne : pool0 ≠ [] := by simpa [List.isEmpty_iff] using hpe
          simp only [Except.ok.injEq, Prod.mk.injEq] at hok
          obtain ⟨hfp1, hfp2⟩ := hok
          have hc : choice pool0 r2 ∈ pool0 := choice_mem _ _ hne
          exact ⟨fun h => absurd h hr1, fun _ => ⟨_, hfp2.symm, (hmem0 _ hc).1, (hmem0 _ hc).2⟩,
            fun h => absurd h hr1⟩
      · rw [if_neg hr2] at hok
        exact ⟨fun h => absurd h hr1, fun h => absurd h hr2, fun h => absurd h hr1⟩
  · intro g1 g2 hne hr1 hr2 h1 h2 h3 h4
    have hpick : manually_picked f = [] := by
      simp [manually_picked, h1, h2, h3, h4]
    rcases Nat.mod_two_eq_zero_or_one r1 with hr | hr
    · left
      simp [resolve_female_slots, hr1, hr2, hpick, choice, hr, Nat.mod_one, hne]
    · right
      simp [resolve_female_slots, hr1, hr2, hpick, choice, hr, Nat.mod_one, hne]

/-- Witness for C5: with pool `["f1", "f2"]`, both random flags and no
manual picks, the assignment yields the two pool members in some order. -/
theorem resolve_female_slots_spec_witness :
    resolve_female_slots ["f1", "f2"] formBothRandom 0 0 = Except.ok (some "f1", some "f2") ∨
    resolve_female_slots ["f1", "f2"] formBothRandom 0 0 = Except.ok (some "f2", some "f1") :=
  (resolve_female_slots_spec formBothRandom 0 0).2 "f1" "f2" (by decide) (by decide)
    (by decide) (by decide) (by decide) (by decide) (by decide)

/-- C6 corrected: counterexample to the tie-stability part of the claim.
The ranking contract (all `sort_values` with the default, non-stable
quicksort kind guarantees) admits an output in which the two equal-ratio
players A and B, supplied in the order A then B, come out B then A — so
"players with equal ratio keep their input order" is not a property of
the program. -/
theorem rankings_tie_reorder_cex :
    IsRankingOf [playerB, playerA] [playerA, playerB] ∧
    win_loss_ratio playerA = win_loss_ratio playerB ∧
    [playerB, playerA] ≠ [playerA, playerB] := by
  have hA : win_loss_ratio playerA = 0 := by norm_num [win_loss_ratio, playerA]
  have hB : win_loss_ratio playerB = 0 := by norm_num [win_loss_ratio, playerB]
  refine ⟨⟨List.Perm.swap playerA playerB [], ?_⟩, by rw [hA, hB], by decide⟩
  refine List.Pairwise.cons ?_ (List.pairwise_singleton _ _)
  intro a ha
  rw [List.mem_singleton] at ha
  subst ha
  unfold ratioGe
  rw [hA, hB]

/-- C6 amended: every admissible result of the rankings route is a
permutation of the players whose win ratios are positionally descending
(an earlier entry never has a smaller ratio, with denominator 1 — hence
ratio 0 — for a player with no matches), and such a result exists for
every input; the order among equal ratios is unspecified, so on the
spec's example every admissible ranking puts C (ratio 1) first while the
ratio-0 players A and B may follow in either order. -/
theorem rankings_contract_spec (ps : List Player) :
    IsRankingOf (ps.insertionSort ratioGe) ps ∧
    (∀ out : List Player, IsRankingOf out ps →
      ∀ (i j : Nat) (hij : i < j) (hj : j < out.length),
        win_loss_ratio (out.get ⟨j, hj⟩) ≤
          win_loss_ratio (out.get ⟨i, Nat.lt_trans hij hj⟩)) ∧
    (∀ p : Player, p.wins + p.losses = 0 → win_loss_ratio p = 0) ∧
    (∀ out : List Player, IsRankingOf out [playerA, playerB, playerC] →
      out = [playerC, playerA, playerB] ∨ out = [playerC, playerB, playerA]) := by
  haveI hTot : IsTotal Player ratioGe := ⟨fun a b => le_total _ _⟩
  haveI hTrans : IsTrans Player ratioGe := ⟨fun a b c hab hbc => le_trans hbc hab⟩
  have hA : win_loss_ratio playerA = 0 := by norm_num [win_loss_ratio, playerA]
  have hB : win_loss_ratio playerB = 0 := by norm_num [win_loss_ratio, playerB]
  have hC : win_loss_ratio playerC = 1 := by norm_num [win_loss_ratio, playerC]
  refine ⟨⟨List.perm_insertionSort ratioGe ps, List.sorted_insertionSort ratioGe ps⟩,
    ?_, ?_, ?_⟩
  · intro out hout i j hij hj
    exact List.pairwise_iff_get.mp hout.2 ⟨i, Nat.lt_trans hij hj⟩ ⟨j, hj⟩ hij
  · intro p h
    have hw : p.wins = 0 := Nat.eq_zero_of_add_eq_zero_right h
    simp [win_loss_ratio, h, hw]
  · intro out hout
    obtain ⟨hperm, hpw⟩ := hout
    have hlen : out.length = 3 := by
      rw [hperm.length_eq]
      rfl
    match out, hlen with
    | [x, y, z], _ =>
      have hx : x ∈ [playerA, playerB, playerC] := hperm.mem_iff.mp (by simp)
      have hCmem : playerC ∈ [x, y, z] := hperm.mem_iff.mpr (by simp)
      have hhead : ∀ a ∈ [y, z], ratioGe x a := (List.pairwise_cons.mp hpw).1
      have hxC : x = playerC := by
        rcases List.mem_cons.mp hx with h1 | hx'
        · exfalso
          have hCyz : playerC ∈ [y, z] := by
            rcases List.mem_cons.mp hCmem with hc | hc
            · exact absurd (hc.trans h1) (by decide)
            · exact hc
          have := hhead playerC hCyz
          unfold ratioGe at this
          rw [hC, h1, hA] at this
          norm_num at this
        · rcases List.mem_cons.mp hx' with h1 | hx''
          · exfalso
            have hCyz : playerC ∈ [y, z] := by
              rcases List.mem_cons.mp hCmem with hc | hc
              · exact absurd (hc.trans h1) (by decide)
              · exact hc
            have := hhead playerC hCyz
            unfold ratioGe at this
            rw [hC, h1, hB] at this
            norm_num at this
          · simpa using hx''
      subst hxC
      have hperm2 : List.Perm [y, z] [playerA, playerB] := by
        have h1 : List.Perm [playerA, playerB, playerC] [playerC, playerA, playerB] := by
          decide
        exact (hperm.trans h1).cons_inv
      have hnd : ([playerC, y, z] : List Player).Nodup :=
        hperm.nodup_iff.mpr (by decide)
      have hyz : y ≠ z := by
        intro h
        rw [h] at hnd
        simp [List.nodup_cons] at hnd
      have hy : y ∈ [playerA, playerB] := hperm2.mem_iff.mp (by simp)
      have hz : z ∈ [playerA, playerB] := hperm2.mem_iff.mp (by simp)
      rcases List.mem_cons.mp hy with hy1 | hy2
      · left
        have hz1 : z = playerB := by
          rcases List.mem_cons.mp hz with h1 | h2
          · exact absurd (h1.trans hy1.symm) hyz.symm
          · simpa using h2
        rw [hy1, hz1]
      · right
        have hy1 : y = playerB := by simpa using hy2
        have hz1 : z = playerA := by
          rcases List.mem_cons.mp hz with h1 | h2
          · exact h1
          · exfalso
            have h2' : z = playerB := by simpa using h2
            exact hyz (hy1.trans h2'.symm)
        rw [hy1, hz1]

/-- Witness for the amended C6: the zero-matches denominator convention
applied to a concrete player. -/
theorem rankings_contract_spec_witness :
    win_loss_ratio playerA = 0 :=
  (rankings_contract_spec []).2.2.1 playerA (by decide)

/-- C9: after slot resolution both creation flows run two final
whole-roster checks before inserting: a still-unset slot fails with the
incomplete-roster error and non-pairwise-distinct usernames (manual picks
included) fail with the duplicate-player error, in that order; on either
failure the state is unchanged, and success implies both checks passed.
The last conjunct reads the two Boolean checks as "some slot unset" and
"the four usernames are not pairwise distinct". -/
theorem create_roster_final_checks (st : AppState) (today : String) (f : MixedForm)
    (g : CustomForm) (r1 r2 : Nat) :
    (∀ fp1 fp2, resolve_female_slots (female_players_usernames st today) f r1 r2 =
        Except.ok (fp1, fp2) →
      (hasBlankSlot [f.male_player1, fp1, f.male_player2, fp2] = true →
        create_match st today f r1 r2 =
          (st, some "All four player slots must be filled.")) ∧
      (hasBlankSlot [f.male_player1, fp1, f.male_player2, fp2] = false →
        hasDuplicate [f.male_player1, fp1, f.male_player2, fp2] = true →
        create_match st today f r1 r2 =
          (st, some "All four players must be unique. A player may have been auto-selected.")) ∧
      ((create_match st today f r1 r2).2 = none →
        hasBlankSlot [f.male_player1, fp1, f.male_player2, fp2] = false ∧
        hasDuplicate [f.male_player1, fp1, f.male_player2, fp2] = false)) ∧
    ((hasBlankSlot [g.team1_player1, g.team1_player2, g.team2_player1, g.team2_player2] = true →
        create_custom_match st g = (st, some "All four player slots must be filled.")) ∧
      (hasBlankSlot [g.team1_player1, g.team1_player2, g.team2_player1, g.team2_player2] = false →
        hasDuplicate [g.team1_player1, g.team1_player2, g.team2_player1, g.team2_player2] = true →
        create_custom_match st g = (st, some "All four players in a match must be unique.")) ∧
      ((create_custom_match st g).2 = none →
        hasBlankSlot [g.team1_player1, g.team1_player2, g.team2_player1, g.team2_player2] = false ∧
        hasDuplicate [g.team1_player1, g.team1_player2, g.team2_player1, g.team2_player2] = false)) ∧
    (∀ a b c d : String,
      (hasBlankSlot [some a, some b, some c, some d] = false ↔
        a ≠ "" ∧ b ≠ "" ∧ c ≠ "" ∧ d ≠ "") ∧
      (hasDuplicate [some a, some b, some c, some d] = false ↔
        ([a, b, c, d] : List String).Nodup)) := by
  refine ⟨?_, ⟨?_, ?_, ?_⟩, ?_⟩
  · intro fp1 fp2 hok
    refine ⟨fun hb => ?_, fun hb hd => ?_, fun hsucc => ?_⟩
    · simp [create_match, hok, hb]
    · simp [create_match, hok, hb, hd]
    · by_cases hb : hasBlankSlot [f.male_player1, fp1, f.male_player2, fp2]
      · exfalso
        simp [create_match, hok, hb] at hsucc
      · by_cases hd : hasDuplicate [f.male_player1, fp1, f.male_player2, fp2]
        · exfalso
          simp [create_match, hok, hb, hd] at hsucc
        · exact ⟨Bool.not_eq_true _ ▸ hb, Bool.not_eq_true _ ▸ hd⟩
  · intro hb
    simp [create_custom_match, hb]
  · intro hb hd
    simp [create_custom_match, hb, hd]
  · intro hsucc
    by_cases hb : hasBlankSlot [g.team1_player1, g.team1_player2, g.team2_player1, g.team2_player2]
    · exfalso
      simp [create_custom_match, hb] at hsucc
    · by_cases hd : hasDuplicate [g.team1_player1, g.team1_player2, g.team2_player1, g.team2_player2]
      · exfalso
        simp [create_custom_match, hb, hd] at hsucc
      · exact ⟨Bool.not_eq_true _ ▸ hb, Bool.not_eq_true _ ▸ hd⟩
  · intro a b c d
    constructor
    · have hsimp : hasBlankSlot [some a, some b, some c, some d] = false ↔
          (¬ "" = a ∧ ¬ "" = b ∧ ¬ "" = c ∧ ¬ "" = d) := by
        simp [hasBlankSlot]
      rw [hsimp]
      constructor
      · rintro ⟨h1, h2, h3, h4⟩
        exact ⟨fun hx => h1 hx.symm, fun hx => h2 hx.symm,
               fun hx => h3 hx.symm, fun hx => h4 hx.symm⟩
      · rintro ⟨h1, h2, h3, h4⟩
        exact ⟨fun hx => h1 hx.symm, fun hx => h2 hx.symm,
               fun hx => h3 hx.symm, fun hx => h4 hx.symm⟩
    · constructor
      · intro h
        have h' : ¬ ((([some a, some b, some c, some d] :
            List (Option String)).filterMap id).dedup.length < 4) := by
          simpa [hasDuplicate] using h
        have hfm : ([some a, some b, some c, some d] : List (Option String)).filterMap id =
            [a, b, c, d] := by simp
        rw [hfm] at h'
        have hle : ([a, b, c, d] : List String).dedup.length ≤ 4 :=
          (List.dedup_sublist _).length_le
        have hlen : ([a, b, c, d] : List String).dedup.length = 4 := by omega
        have heq : ([a, b, c, d] : List String).dedup = [a, b, c, d] :=
          (List.dedup_sublist _).eq_of_length (by simpa using hlen)
        rw [← heq]
        exact List.nodup_dedup _
      · intro h
        have : ([a, b, c, d] : List String).dedup = [a, b, c, d] :=
          List.dedup_eq_self.mpr h
        simp [hasDuplicate, this]

/-- Witness for C9: a custom form whose manual picks collide is rejected
by the duplicate check, leaving the state unchanged. -/
theorem create_roster_final_checks_witness :
    create_custom_match stScheduled formDupCustom =
      (stScheduled, some "All four players in a match must be unique.") :=
  (create_roster_final_checks stScheduled "2025-01-01" formBothRandom formDupCustom 0 0).2.1.2.1
    (by decide) (by decide)

end Smashers